import Mathlib

/-!
# Rentify Stripe backend — shallow embedding

A shallow embedding of `src/server.js` (an Express façade over the Stripe
SDK) and proofs about the claims of the specification.

Modelling conventions, used uniformly below:

* A JS request-body field that may be absent (`undefined`) is an `Option`;
  destructuring defaults (`currency = "myr"`, `platformFee = 0`, …) apply
  only to the absent case, matching JS semantics.
* JS truthiness tests `!x` on the values this server actually tests are
  modelled by `falsyStr` / `falsyInt`: a string is falsy when absent or
  empty, a number when absent or zero (negative numbers are truthy).
* Every `await stripe.…` call is modelled by an oracle result supplied as
  an argument (the environment decides what the upstream platform would
  answer), and the handler additionally returns the ordered trace of
  upstream calls it issued, as a `List StripeCall`.  A thrown SDK error is
  an `Except.error msg`; the enclosing `try/catch` of each handler turns
  it into the 500 (`upstreamError`) response.
* HTTP statuses are modelled by outcome constructors: `ok` is the 200
  JSON response, `badRequest` the 400 response, `upstreamError` the 500
  response.
* `StripeCall.refundCancel` is an upstream operation the Stripe API
  offers but that this server never invokes; it is in the vocabulary so
  that "the refund is not rolled back" is expressible as its absence from
  every trace.
* Amounts are `Int` (JS numbers in minor units; the floating-point
  convenience field `amountRm = amount / 100` of the history endpoints is
  a float and is out of scope, so it is omitted from `Txn`).
* `Array.prototype.sort` in Node (ES2019+) is a stable sort; with the
  comparator `(a, b) => b.created - a.created` its output is the unique
  stable descending-by-`created` ordering, modelled by Mathlib's stable
  `List.insertionSort` with the relation `txnGe`.
-/

namespace Rentify

/-- JS truthiness for the string-valued fields the server tests:
`!s` holds when the field is absent (`undefined`/`null`) or `""`. -/
def falsyStr : Option String → Bool
  | none => true
  | some s => s == ""

/-- JS truthiness for the numeric fields the server tests:
`!n` holds when the field is absent or `0` (negative values are truthy). -/
def falsyInt : Option Int → Bool
  | none => true
  | some n => n == 0

/-- `o || d` for a string field: the default replaces falsy values. -/
def jsOrStr (o : Option String) (d : String) : String :=
  if falsyStr o then d else o.getD ""

/-- `o || null` for a string field: falsy collapses to `null`. -/
def jsOrNull (o : Option String) : Option String :=
  if falsyStr o then none else o

/-- The payload of a `stripe.paymentIntents.create` call, as assembled by
`POST /create-payment-intent` (src/server.js lines 121–137). -/
structure PaymentIntentParams where
  amount : Int
  currency : String
  customer : String
  automaticPaymentMethods : Bool
  destination : String
  transfer_group : String
  application_fee_amount : Int
  description : String
  deriving Repr, DecidableEq

/-- The upstream Stripe calls the server can issue.  `refundCancel` is
never issued by the code; it names the hypothetical rollback operation. -/
inductive StripeCall where
  | paymentIntentCreate (params : PaymentIntentParams)
  | refundCreate (paymentIntentId : String)
  | refundCancel (refundId : String)
  | piRetrieve (paymentIntentId : String)
  | transfersList (transferGroup : String)
  | reversalCreate (transferId : String) (amount : Int)
  | customerDelete (customerId : String)
  | accountDelete (accountId : String)
  deriving Repr, DecidableEq

/-! ## POST /create-payment-intent (src/server.js lines 103–149) -/

/-- The request body of `POST /create-payment-intent`; absent fields are
`none`, and the handler's destructuring defaults are applied on use. -/
structure PaymentRequest where
  amount : Option Int
  customerId : Option String
  ownerConnectAccountId : Option String
  description : Option String
  currency : Option String
  platformFee : Option Int
  deriving Repr, DecidableEq

/-- The fields of the created payment intent that the handler reads. -/
structure CreatedPI where
  client_secret : Option String
  id : String
  deriving Repr, DecidableEq

/-- Outcome of `POST /create-payment-intent`: 200 carries
`clientSecret`, `paymentIntentId` and `transferGroup`. -/
inductive CreateOutcome where
  | ok (clientSecret : Option String) (paymentIntentId : String)
      (transferGroup : String)
  | badRequest (msg : String)
  | upstreamError (msg : String)
  deriving Repr, DecidableEq

/-- Line 114: `if (!amount || !customerId || !ownerConnectAccountId)`. -/
def missingFields (req : PaymentRequest) : Bool :=
  falsyInt req.amount || falsyStr req.customerId ||
    falsyStr req.ownerConnectAccountId

/-- Line 119: ``const transferGroup = `booking_${Date.now()}` `` — the
token is a pure function of the millisecond clock reading `now`. -/
def mkTransferGroup (now : Nat) : String :=
  "booking_" ++ toString now

/-- `POST /create-payment-intent`.  `now` is the value `Date.now()`
returns during this invocation; `createResult` is what
`stripe.paymentIntents.create` would answer. -/
def createPaymentIntent (req : PaymentRequest) (now : Nat)
    (createResult : Except String CreatedPI) :
    CreateOutcome × List StripeCall :=
  if missingFields req then
    (.badRequest "Missing fields", [])
  else
    let transferGroup := mkTransferGroup now
    let params : PaymentIntentParams :=
      { amount := req.amount.getD 0
        currency := req.currency.getD "myr"
        customer := req.customerId.getD ""
        automaticPaymentMethods := true
        destination := req.ownerConnectAccountId.getD ""
        transfer_group := transferGroup
        application_fee_amount := req.platformFee.getD 0
        description := req.description.getD "Rentify booking" }
    match createResult with
    | .error e => (.upstreamError e, [.paymentIntentCreate params])
    | .ok pi =>
        (.ok pi.client_secret pi.id transferGroup,
         [.paymentIntentCreate params])

/-- The settlement-group token of a successful outcome, if any. -/
def tokenOf : CreateOutcome → Option String
  | .ok _ _ transferGroup => some transferGroup
  | _ => none

/-! ## POST /refund (src/server.js lines 154–207) -/

/-- The fields of `stripe.refunds.create`'s answer that the handler reads. -/
structure Refund where
  id : String
  status : String
  deriving Repr, DecidableEq

/-- The field of the retrieved payment intent the handler reads. -/
structure RetrievedPI where
  transfer_group : Option String
  deriving Repr, DecidableEq

/-- One element of `stripe.transfers.list(...).data`. -/
structure TransferItem where
  id : String
  amount : Int
  deriving Repr, DecidableEq

/-- A transfer-reversal record returned by
`stripe.transfers.createReversal`. -/
structure Reversal where
  id : String
  amount : Int
  deriving Repr, DecidableEq

/-- Oracle for the upstream calls of one `/refund` invocation; the k-th
`createReversal` call (0-based) answers `reversalResult k`. -/
structure RefundEnv where
  refundResult : Except String Refund
  retrieveResult : Except String RetrievedPI
  listResult : Except String (List TransferItem)
  reversalResult : Nat → Except String Reversal

/-- The 200 body of `/refund`.  In the no-group branch the JSON simply
omits the `reversal` key; both that and an explicit `null` are `none`. -/
structure RefundResponse where
  success : Bool
  refundId : String
  refundStatus : String
  transferReversed : Bool
  reversal : Option Reversal
  deriving Repr, DecidableEq

/-- Outcome of `POST /refund`. -/
inductive RefundOutcome where
  | ok (body : RefundResponse)
  | badRequest (msg : String)
  | upstreamError (msg : String)
  deriving Repr, DecidableEq

/-- Lines 186–193: `let reversal = null; for (const t of transfers.data)
reversal = await stripe.transfers.createReversal(t.id, { amount: t.amount })`.
`acc` is the current value of the `reversal` variable, `idx` the number of
reversal calls already issued; a thrown call aborts the loop.  Returns the
final value of `reversal` (or the error) and the reversal calls issued. -/
def reverseLoop (env : RefundEnv) (idx : Nat) (acc : Option Reversal) :
    List TransferItem → Except String (Option Reversal) × List StripeCall
  | [] => (.ok acc, [])
  | t :: ts =>
    match env.reversalResult idx with
    | .error e => (.error e, [.reversalCreate t.id t.amount])
    | .ok rev =>
        let rest := reverseLoop env (idx + 1) (some rev) ts
        (rest.1, .reversalCreate t.id t.amount :: rest.2)

/-- `POST /refund` (lines 154–207): refund, retrieve the payment intent,
branch on its `transfer_group`, list the group's transfers and reverse
each in full; any thrown upstream call reaches the catch (500). -/
def refundHandler (paymentIntentId : Option String) (env : RefundEnv) :
    RefundOutcome × List StripeCall :=
  if falsyStr paymentIntentId then
    (.badRequest "Missing paymentIntentId", [])
  else
    let pid := paymentIntentId.getD ""
    match env.refundResult with
    | .error e => (.upstreamError e, [.refundCreate pid])
    | .ok refund =>
      match env.retrieveResult with
      | .error e => (.upstreamError e, [.refundCreate pid, .piRetrieve pid])
      | .ok pi =>
        if falsyStr pi.transfer_group then
          (.ok { success := true
                 refundId := refund.id
                 refundStatus := refund.status
                 transferReversed := false
                 reversal := none },
           [.refundCreate pid, .piRetrieve pid])
        else
          let group := pi.transfer_group.getD ""
          match env.listResult with
          | .error e =>
              (.upstreamError e,
               [.refundCreate pid, .piRetrieve pid, .transfersList group])
          | .ok transfers =>
            let looped := reverseLoop env 0 none transfers
            match looped.1 with
            | .error e =>
                (.upstreamError e,
                 [.refundCreate pid, .piRetrieve pid, .transfersList group]
                   ++ looped.2)
            | .ok reversal =>
                (.ok { success := true
                       refundId := refund.id
                       refundStatus := refund.status
                       transferReversed := reversal.isSome
                       reversal := reversal },
                 [.refundCreate pid, .piRetrieve pid, .transfersList group]
                   ++ looped.2)

/-! ## Transaction history (src/server.js lines 287–343 and 349–406) -/

/-- The fields of a Stripe charge object that the history endpoints read.
`payment_intent` is the payment-intent id whether the field arrives as a
plain id string (renter flow) or as an expanded object whose `.id` is
taken (owner flow). -/
structure Charge where
  id : String
  amount : Int
  currency : String
  created : Int
  payment_intent : Option String
  description : Option String
  receipt_url : Option String
  customer : Option String
  deriving Repr, DecidableEq

/-- One element of `stripe.refunds.list({ expand: ["data.charge"] }).data`. -/
structure RefundItem where
  id : String
  amount : Int
  currency : String
  created : Int
  payment_intent : Option String
  charge : Option Charge
  deriving Repr, DecidableEq

/-- A combined-history entry (`amountRm`, a floating-point convenience
copy of `amount`, is omitted — see the header note). -/
structure Txn where
  id : String
  amount : Int
  currency : String
  created : Int
  type : String
  direction : String
  paymentIntentId : Option String
  description : String
  receiptUrl : Option String
  deriving Repr, DecidableEq

/-- Lines 300–311: the mapping of a charge to a `"payment"` entry. -/
def toPaymentTxn (c : Charge) : Txn :=
  { id := c.id
    amount := c.amount
    currency := c.currency
    created := c.created
    type := "payment"
    direction := "out"
    paymentIntentId := c.payment_intent
    description := jsOrStr c.description "Payment"
    receiptUrl := jsOrNull c.receipt_url }

/-- Line 320: `r.charge && r.charge.customer === customerId`. -/
def refundMatches (customerId : String) (r : RefundItem) : Bool :=
  match r.charge with
  | none => false
  | some c => c.customer == some customerId

/-- Lines 321–332: the mapping of a refund to a `"refund"` entry. -/
def toRefundTxn (r : RefundItem) : Txn :=
  { id := r.id
    amount := r.amount
    currency := r.currency
    created := r.created
    type := "refund"
    direction := "in"
    paymentIntentId := r.payment_intent
    description := "Refund"
    receiptUrl := jsOrNull (r.charge.bind Charge.receipt_url) }

/-- The order produced by the comparator `(a, b) => b.created - a.created`:
`a` may come before `b` when `b.created ≤ a.created`. -/
def txnGe (a b : Txn) : Prop := b.created ≤ a.created

instance : DecidableRel txnGe := fun a b =>
  inferInstanceAs (Decidable (b.created ≤ a.created))

instance : IsTotal Txn txnGe :=
  ⟨fun a b => le_total b.created a.created⟩

instance : IsTrans Txn txnGe :=
  ⟨fun _ _ _ hab hbc => le_trans hbc hab⟩

/-- `[...].sort((a, b) => b.created - a.created)`: Node's sort is stable,
so its output is the unique stable descending reordering, computed here by
the stable `List.insertionSort`. -/
def sortTxns (l : List Txn) : List Txn :=
  List.insertionSort txnGe l

/-- Outcome of the two history endpoints. -/
inductive TxOutcome where
  | ok (transactions : List Txn)
  | badRequest (msg : String)
  | upstreamError (msg : String)
  deriving Repr, DecidableEq

/-- `POST /transactions/renter` (lines 287–343).  `chargesResult` is the
answer of `stripe.charges.list({ customer })`, `refundsResult` that of
`stripe.refunds.list({ expand: ["data.charge"] })`. -/
def rentersHandler (customerId : Option String)
    (chargesResult : Except String (List Charge))
    (refundsResult : Except String (List RefundItem)) : TxOutcome :=
  if falsyStr customerId then .badRequest "Missing customerId"
  else
    match chargesResult with
    | .error e => .upstreamError e
    | .ok cs =>
      match refundsResult with
      | .error e => .upstreamError e
      | .ok rs =>
        let payments := cs.map toPaymentTxn
        let refunds :=
          (rs.filter (refundMatches (customerId.getD ""))).map toRefundTxn
        .ok (sortTxns (payments ++ refunds))

/-- One element of a transfer's expanded `reversals.data`. -/
structure ReversalItem where
  id : String
  amount : Int
  created : Int
  deriving Repr, DecidableEq

/-- One element of `stripe.transfers.list({ destination, expand:
["data.source_transaction.payment_intent", "data.reversals"] }).data`. -/
structure OwnerTransfer where
  id : String
  amount : Int
  currency : String
  created : Int
  source_transaction : Option Charge
  reversals : Option (List ReversalItem)
  deriving Repr, DecidableEq

/-- Lines 366–380: the mapping of a transfer to a `"transfer"` entry;
`charge?.payment_intent?.id ?? null` and `charge?.receipt_url || null`. -/
def toPayoutTxn (t : OwnerTransfer) : Txn :=
  { id := t.id
    amount := t.amount
    currency := t.currency
    created := t.created
    type := "transfer"
    direction := "in"
    paymentIntentId := t.source_transaction.bind Charge.payment_intent
    description := "Payout received"
    receiptUrl := jsOrNull (t.source_transaction.bind Charge.receipt_url) }

/-- Lines 382–396: the mapping of one reversal of transfer `t` to a
`"reverse_transfer"` entry (currency and charge data come from `t`). -/
def toReversalTxn (t : OwnerTransfer) (rev : ReversalItem) : Txn :=
  { id := rev.id
    amount := rev.amount
    currency := t.currency
    created := rev.created
    type := "reverse_transfer"
    direction := "out"
    paymentIntentId := t.source_transaction.bind Charge.payment_intent
    description := "Payout reversed"
    receiptUrl := jsOrNull (t.source_transaction.bind Charge.receipt_url) }

/-- `POST /transactions/owner` (lines 349–406): payouts in list order,
then all reversals in nested-loop order, then the same stable sort. -/
def ownersHandler (connectAccountId : Option String)
    (transfersResult : Except String (List OwnerTransfer)) : TxOutcome :=
  if falsyStr connectAccountId then .badRequest "Missing connectAccountId"
  else
    match transfersResult with
    | .error e => .upstreamError e
    | .ok ts =>
      let payouts := ts.map toPayoutTxn
      let reversals :=
        ts.flatMap fun t => (t.reversals.getD []).map (toReversalTxn t)
      .ok (sortTxns (payouts ++ reversals))

/-! ## DELETE /stripe/delete-accounts (src/server.js lines 409–457) -/

/-- The `results` object; a key never assigned is `none`. -/
structure DeleteDetails where
  customerDeleted : Option Bool
  connectAccountDeleted : Option Bool
  deriving Repr, DecidableEq

/-- Outcome of `DELETE /stripe/delete-accounts`. -/
inductive DeleteOutcome where
  | ok (success : Bool) (message : String) (details : DeleteDetails)
  | badRequest (success : Bool) (message : String)
  deriving Repr, DecidableEq

/-- `DELETE /stripe/delete-accounts`.  `customerDelOk` / `connectDelOk`
say whether the respective `del` call would succeed; each attempt's
failure is caught locally and recorded as `false`. -/
def deleteAccounts (customerId connectAccountId : Option String)
    (customerDelOk connectDelOk : Bool) :
    DeleteOutcome × List StripeCall :=
  if falsyStr customerId && falsyStr connectAccountId then
    (.badRequest false "No Stripe IDs provided.", [])
  else
    let customerDeleted : Option Bool :=
      if falsyStr customerId then none else some customerDelOk
    let customerCalls : List StripeCall :=
      if falsyStr customerId then []
      else [.customerDelete (customerId.getD "")]
    let connectDeleted : Option Bool :=
      if falsyStr connectAccountId then some true else some connectDelOk
    let connectCalls : List StripeCall :=
      if falsyStr connectAccountId then []
      else [.accountDelete (connectAccountId.getD "")]
    (.ok true "Deletion attempted."
       { customerDeleted := customerDeleted
         connectAccountDeleted := connectDeleted },
     customerCalls ++ connectCalls)

/-! ## Startup check and GET /config (src/server.js lines 18–21, 275–277) -/

/-- The two environment variables the server reads. -/
structure ProcessEnv where
  STRIPE_SECRET_KEY : Option String
  STRIPE_PUBLISHABLE_KEY : Option String
  deriving Repr, DecidableEq

/-- Lines 18–21: `if (!process.env.STRIPE_SECRET_KEY) process.exit(1)`. -/
def startupExits (env : ProcessEnv) : Bool :=
  falsyStr env.STRIPE_SECRET_KEY

/-- The body of `GET /config`. -/
structure ConfigResponse where
  publishableKey : Option String
  deriving Repr, DecidableEq

/-- Lines 275–277: unconditionally 200 with the raw environment value. -/
def configHandler (env : ProcessEnv) : Nat × ConfigResponse :=
  (200, { publishableKey := env.STRIPE_PUBLISHABLE_KEY })

/-! ## Concrete inputs used to evaluate the definitions -/

/-- A well-formed payment request (payer `cus_a`). -/
def reqC1a : PaymentRequest :=
  ⟨some 100, some "cus_a", some "acct_a", none, none, none⟩

/-- A second, different well-formed payment request (payer `cus_b`). -/
def reqC1b : PaymentRequest :=
  ⟨some 250, some "cus_b", some "acct_b", none, none, none⟩

/-- A request whose `customerId` is absent. -/
def reqNoCustomer : PaymentRequest :=
  ⟨some 500, none, some "acct_1", none, none, none⟩

/-- A request whose platform fee (99999) exceeds its amount (100). -/
def reqBigFee : PaymentRequest :=
  ⟨some 100, some "cus_1", some "acct_1", none, none, some 99999⟩

/-- A request with `amount = 0` (falsy in JS). -/
def reqZeroAmount : PaymentRequest :=
  ⟨some 0, some "cus_1", some "acct_1", none, none, none⟩

/-- A request with a negative amount (truthy in JS). -/
def reqNegAmount : PaymentRequest :=
  ⟨some (-5), some "cus_1", some "acct_1", none, none, none⟩

/-- Two transfers under one settlement group. -/
def tsTwo : List TransferItem := [⟨"tr_1", 7000⟩, ⟨"tr_2", 2500⟩]

/-- Distinct reversal records for the successive reversal calls. -/
def revsTwo : Nat → Reversal := fun i => ⟨"trr_" ++ toString i, 100 * (i + 1)⟩

/-- Refund oracle: everything succeeds, two transfers in the group. -/
def envTwoTransfers : RefundEnv :=
  { refundResult := .ok ⟨"re_1", "succeeded"⟩
    retrieveResult := .ok ⟨some "booking_42"⟩
    listResult := .ok tsTwo
    reversalResult := fun i => .ok (revsTwo i) }

/-- Refund oracle: the initial refund call itself fails. -/
def envRefundFails : RefundEnv :=
  { refundResult := .error "charge_already_refunded"
    retrieveResult := .ok ⟨some "booking_42"⟩
    listResult := .ok tsTwo
    reversalResult := fun i => .ok (revsTwo i) }

/-- Refund oracle: refund succeeds, the retrieved payment intent carries
no settlement-group token. -/
def envNoGroup : RefundEnv :=
  { refundResult := .ok ⟨"re_2", "succeeded"⟩
    retrieveResult := .ok ⟨none⟩
    listResult := .ok tsTwo
    reversalResult := fun i => .ok (revsTwo i) }

/-- Two charges of the same customer created in the same second. -/
def tieCharge1 : Charge :=
  ⟨"ch_1", 100, "myr", 5, some "pi_1", none, none, some "cus_1"⟩

/-- Second charge with the same creation time as `tieCharge1`. -/
def tieCharge2 : Charge :=
  ⟨"ch_2", 300, "myr", 5, some "pi_2", none, none, some "cus_1"⟩

end Rentify

/-! # Theorems -/

namespace Rentify

theorem falsyStr_some_eq_false {s : String} (h : s ≠ "") :
    falsyStr (some s) = false := by
  simp [falsyStr, h]

/-- The reversal loop when every reversal call succeeds: one call per
transfer, in order, each for the transfer's own amount; the returned
`reversal` variable holds the last record (or the incoming `acc` when no
transfer exists). -/
theorem reverseLoop_ok (env : RefundEnv) (revs : Nat → Reversal)
    (henv : ∀ i, env.reversalResult i = .ok (revs i)) :
    ∀ (ts : List TransferItem) (idx : Nat) (acc : Option Reversal),
      reverseLoop env idx acc ts =
        (.ok (if ts.isEmpty then acc else some (revs (idx + ts.length - 1))),
         ts.map fun t => .reversalCreate t.id t.amount) := by
  intro ts
  induction ts with
  | nil => intro idx acc; simp [reverseLoop]
  | cons t ts ih =>
    intro idx acc
    simp only [reverseLoop, henv idx, ih (idx + 1) (some (revs idx))]
    cases ts with
    | nil => simp
    | cons u us =>
      simp only [List.isEmpty_cons, List.length_cons, List.map_cons,
        Bool.false_eq_true, if_false]
      have harith : idx + 1 + (us.length + 1) - 1 = idx + (us.length + 1 + 1) - 1 := by
        omega
      rw [harith]

/-- The reversal loop when the `k`-th reversal call (0-based, `k` within
the list) throws: the loop aborts with that error. -/
theorem reverseLoop_err (env : RefundEnv) (e : String) :
    ∀ (ts : List TransferItem) (k idx : Nat) (acc : Option Reversal),
      (∀ i, i < k → ∃ rv, env.reversalResult (idx + i) = .ok rv) →
      env.reversalResult (idx + k) = .error e →
      k < ts.length →
      (reverseLoop env idx acc ts).1 = .error e := by
  intro ts
  induction ts with
  | nil =>
    intro k idx acc _ _ hk
    simp at hk
  | cons t ts ih =>
    intro k idx acc hok herr hk
    cases k with
    | zero =>
      have herr0 : env.reversalResult idx = .error e := by simpa using herr
      simp [reverseLoop, herr0]
    | succ k =>
      obtain ⟨rv, hrv⟩ : ∃ rv, env.reversalResult idx = .ok rv := by
        simpa using hok 0 (Nat.succ_pos k)
      simp only [reverseLoop, hrv]
      exact ih k (idx + 1) (some rv)
        (fun i hi => by
          have h := hok (i + 1) (Nat.succ_lt_succ hi)
          rwa [show idx + (i + 1) = idx + 1 + i by omega] at h)
        (by rwa [show idx + 1 + k = idx + (k + 1) by omega])
        (by simpa using Nat.lt_of_succ_lt_succ hk)

/-- The reversal loop only ever issues `reversalCreate` calls. -/
theorem reverseLoop_no_cancel (env : RefundEnv) (rid : String) :
    ∀ (ts : List TransferItem) (idx : Nat) (acc : Option Reversal),
      StripeCall.refundCancel rid ∉ (reverseLoop env idx acc ts).2 := by
  intro ts
  induction ts with
  | nil => intro idx acc; simp [reverseLoop]
  | cons t ts ih =>
    intro idx acc
    cases hrv : env.reversalResult idx with
    | error e => simp [reverseLoop, hrv]
    | ok rev => simp [reverseLoop, hrv, ih (idx + 1) (some rev)]

/-- `/refund` never issues the (hypothetical) refund-rollback call. -/
theorem refundHandler_no_cancel (pidOpt : Option String) (env : RefundEnv)
    (rid : String) :
    StripeCall.refundCancel rid ∉ (refundHandler pidOpt env).2 := by
  unfold refundHandler
  by_cases hp : falsyStr pidOpt = true
  · simp [hp]
  · simp only [hp, Bool.false_eq_true, if_false]
    cases env.refundResult with
    | error e => simp
    | ok refund =>
      cases env.retrieveResult with
      | error e => simp
      | ok pi =>
        by_cases hg : falsyStr pi.transfer_group = true
        · simp [hg]
        · simp only [hg, Bool.false_eq_true, if_false]
          cases env.listResult with
          | error e => simp
          | ok transfers =>
            have hnc := reverseLoop_no_cancel env rid transfers 0 none
            cases hloop : (reverseLoop env 0 none transfers).1 with
            | error e =>
              simp only [hloop]
              simp_all
            | ok reversal =>
              simp only [hloop]
              simp_all

/-! ## C1 -/

/-- Claim C1, as stated, is false: the settlement-group token is derived
from the millisecond clock alone, so two successful back-to-back calls
that observe the same `Date.now()` value — here two different valid
requests at clock reading 1700 — return the identical token
`booking_1700`. -/
theorem c1_counterexample :
    tokenOf (createPaymentIntent reqC1a 1700 (.ok ⟨some "cs_a", "pi_A"⟩)).1 =
        some "booking_1700" ∧
    tokenOf (createPaymentIntent reqC1b 1700 (.ok ⟨some "cs_b", "pi_B"⟩)).1 =
        some "booking_1700" ∧
    reqC1a ≠ reqC1b := by
  refine ⟨by decide, by decide, by decide⟩

/-- Claim C1 (amended): every successful initiation returns the token
`booking_<clock reading>`, a pure function of the millisecond clock, so
two calls observing the same millisecond mint identical tokens;
distinctness of the minted tokens is contingent on the clock having
advanced between the calls, not guaranteed by the code. -/
theorem c1_token_is_clock_function (req₁ req₂ : PaymentRequest) (now : Nat)
    (pi₁ pi₂ : CreatedPI)
    (h₁ : missingFields req₁ = false) (h₂ : missingFields req₂ = false) :
    tokenOf (createPaymentIntent req₁ now (.ok pi₁)).1 =
        some (mkTransferGroup now) ∧
    tokenOf (createPaymentIntent req₁ now (.ok pi₁)).1 =
      tokenOf (createPaymentIntent req₂ now (.ok pi₂)).1 := by
  constructor
  · simp [createPaymentIntent, h₁, tokenOf]
  · simp [createPaymentIntent, h₁, h₂, tokenOf]

/-- Witness for `c1_token_is_clock_function` at two concrete requests and
clock reading 1700. -/
theorem c1_token_is_clock_function_witness :
    tokenOf (createPaymentIntent reqC1a 1700 (.ok ⟨some "cs_a", "pi_A"⟩)).1 =
        some (mkTransferGroup 1700) ∧
    tokenOf (createPaymentIntent reqC1a 1700 (.ok ⟨some "cs_a", "pi_A"⟩)).1 =
      tokenOf (createPaymentIntent reqC1b 1700 (.ok ⟨some "cs_b", "pi_B"⟩)).1 :=
  c1_token_is_clock_function reqC1a reqC1b 1700 ⟨some "cs_a", "pi_A"⟩
    ⟨some "cs_b", "pi_B"⟩ rfl rfl

/-! ## C2 -/

/-- Claim C2: on a refund whose settlement group lists `N ≥ 1` transfers
(all reversal calls succeeding), exactly one reversal call per transfer
is issued, in list order, each for that transfer's own full amount; the
response carries `transferReversed = true` and echoes only the last
reversal record, even when `N > 1`. -/
theorem c2_all_transfers_reversed (pid : String) (hpid : pid ≠ "")
    (env : RefundEnv) (r : Refund) (pi : RetrievedPI) (g : String)
    (hg : g ≠ "") (ts : List TransferItem) (revs : Nat → Reversal)
    (h1 : env.refundResult = .ok r) (h2 : env.retrieveResult = .ok pi)
    (h3 : pi.transfer_group = some g) (h4 : env.listResult = .ok ts)
    (h5 : ∀ i, env.reversalResult i = .ok (revs i)) (hN : ts ≠ []) :
    refundHandler (some pid) env =
      (.ok { success := true
             refundId := r.id
             refundStatus := r.status
             transferReversed := true
             reversal := some (revs (ts.length - 1)) },
       [.refundCreate pid, .piRetrieve pid, .transfersList g] ++
         ts.map fun t => StripeCall.reversalCreate t.id t.amount) := by
  have hfs := falsyStr_some_eq_false hpid
  have hfg := falsyStr_some_eq_false hg
  have hloop := reverseLoop_ok env revs h5 ts 0 none
  have hemp : ts.isEmpty = false := by
    cases ts with
    | nil => exact absurd rfl hN
    | cons a as => rfl
  simp [refundHandler, hfs, h1, h2, h3, hfg, h4, hloop, hemp]

/-- Witness for `c2_all_transfers_reversed`: a group of two transfers;
both are reversed in full and only the second record is echoed. -/
theorem c2_all_transfers_reversed_witness :
    refundHandler (some "pi_1") envTwoTransfers =
      (.ok { success := true
             refundId := "re_1"
             refundStatus := "succeeded"
             transferReversed := true
             reversal := some (revsTwo 1) },
       [.refundCreate "pi_1", .piRetrieve "pi_1", .transfersList "booking_42",
        .reversalCreate "tr_1" 7000, .reversalCreate "tr_2" 2500]) := by
  have h := c2_all_transfers_reversed "pi_1" (by decide) envTwoTransfers
    ⟨"re_1", "succeeded"⟩ ⟨some "booking_42"⟩ "booking_42" (by decide)
    tsTwo revsTwo rfl rfl rfl rfl (fun i => rfl) (by decide)
  rw [h]; rfl

/-! ## C3 -/

/-- Claim C3: if the initial refund call throws, the handler stops with
the 500 upstream error having issued only the refund call (no retrieve,
list or reversal); if the refund succeeds and a later step (retrieve,
list, or the `k`-th reversal) throws, the 500 upstream error is surfaced
while the refund call has already been issued; and no trace ever contains
a refund-rollback call. -/
theorem c3_failure_semantics (pid : String) (hpid : pid ≠ "")
    (env : RefundEnv) :
    (∀ e, env.refundResult = .error e →
        refundHandler (some pid) env =
          (.upstreamError e, [.refundCreate pid])) ∧
    (∀ r e, env.refundResult = .ok r → env.retrieveResult = .error e →
        refundHandler (some pid) env =
          (.upstreamError e, [.refundCreate pid, .piRetrieve pid])) ∧
    (∀ r pi g e, env.refundResult = .ok r → env.retrieveResult = .ok pi →
        pi.transfer_group = some g → g ≠ "" → env.listResult = .error e →
        refundHandler (some pid) env =
          (.upstreamError e,
           [.refundCreate pid, .piRetrieve pid, .transfersList g])) ∧
    (∀ r pi g ts k e, env.refundResult = .ok r → env.retrieveResult = .ok pi →
        pi.transfer_group = some g → g ≠ "" → env.listResult = .ok ts →
        (∀ i, i < k → ∃ rv, env.reversalResult i = .ok rv) →
        env.reversalResult k = .error e → k < ts.length →
        (refundHandler (some pid) env).1 = .upstreamError e ∧
        StripeCall.refundCreate pid ∈ (refundHandler (some pid) env).2) ∧
    (∀ rid, StripeCall.refundCancel rid ∉ (refundHandler (some pid) env).2) := by
  have hfs := falsyStr_some_eq_false hpid
  refine ⟨?_, ?_, ?_, ?_, ?_⟩
  · intro e he
    simp [refundHandler, hfs, he]
  · intro r e h1 h2
    simp [refundHandler, hfs, h1, h2]
  · intro r pi g e h1 h2 h3 hg h4
    simp [refundHandler, hfs, h1, h2, h3, falsyStr_some_eq_false hg, h4]
  · intro r pi g ts k e h1 h2 h3 hg h4 hok herr hk
    have hloop : (reverseLoop env 0 none ts).1 = .error e :=
      reverseLoop_err env e ts k 0 none
        (fun i hi => by simpa using hok i hi) (by simpa using herr) hk
    constructor
    · simp [refundHandler, hfs, h1, h2, h3, falsyStr_some_eq_false hg, h4, hloop]
    · simp [refundHandler, hfs, h1, h2, h3, falsyStr_some_eq_false hg, h4, hloop]
  · intro rid
    exact refundHandler_no_cancel (some pid) env rid

/-- Witness for `c3_failure_semantics`: the refund call itself fails and
the handler aborts having issued only that call. -/
theorem c3_failure_semantics_witness :
    refundHandler (some "pi_1") envRefundFails =
      (.upstreamError "charge_already_refunded", [.refundCreate "pi_1"]) :=
  (c3_failure_semantics "pi_1" (by decide) envRefundFails).1
    "charge_already_refunded" rfl

/-! ## C4 -/

/-- Claim C4: when the retrieved authorization carries no settlement-group
token, `/refund` returns the 200 response with the refund outcome and
`transferReversed = false`, and the trace shows no transfer-list call and
no reversal call — the case is not an error. -/
theorem c4_no_group_no_reversal (pid : String) (hpid : pid ≠ "")
    (env : RefundEnv) (r : Refund) (pi : RetrievedPI)
    (h1 : env.refundResult = .ok r) (h2 : env.retrieveResult = .ok pi)
    (h3 : falsyStr pi.transfer_group = true) :
    refundHandler (some pid) env =
      (.ok { success := true
             refundId := r.id
             refundStatus := r.status
             transferReversed := false
             reversal := none },
       [.refundCreate pid, .piRetrieve pid]) := by
  simp [refundHandler, falsyStr_some_eq_false hpid, h1, h2, h3]

/-- Witness for `c4_no_group_no_reversal` at a concrete oracle whose
retrieved payment intent has `transfer_group = null`. -/
theorem c4_no_group_no_reversal_witness :
    refundHandler (some "pi_2") envNoGroup =
      (.ok { success := true
             refundId := "re_2"
             refundStatus := "succeeded"
             transferReversed := false
             reversal := none },
       [.refundCreate "pi_2", .piRetrieve "pi_2"]) :=
  c4_no_group_no_reversal "pi_2" (by decide) envNoGroup
    ⟨"re_2", "succeeded"⟩ ⟨none⟩ rfl rfl rfl

/-! ## C5 -/

/-- Claim C5: a payment-initiation request whose `amount`, `customerId`
or `ownerConnectAccountId` is missing or falsy gets the 400 response
`Missing fields` and no upstream call is issued (empty trace). -/
theorem c5_missing_field_rejected_no_call (req : PaymentRequest) (now : Nat)
    (createResult : Except String CreatedPI)
    (h : falsyInt req.amount = true ∨ falsyStr req.customerId = true ∨
        falsyStr req.ownerConnectAccountId = true) :
    createPaymentIntent req now createResult =
      (.badRequest "Missing fields", []) := by
  have hm : missingFields req = true := by
    rcases h with h | h | h <;> simp [missingFields, h]
  simp [createPaymentIntent, hm]

/-- Witness for `c5_missing_field_rejected_no_call`: absent payer
reference. -/
theorem c5_missing_field_rejected_no_call_witness :
    createPaymentIntent reqNoCustomer 1000 (.ok ⟨some "cs", "pi_1"⟩) =
      (.badRequest "Missing fields", []) :=
  c5_missing_field_rejected_no_call reqNoCustomer 1000 (.ok ⟨some "cs", "pi_1"⟩)
    (Or.inr (Or.inl rfl))

/-! ## C7 -/

/-- Claim C7: once the mandatory-field validation passes, exactly one
upstream creation call is issued and it carries the request's
`platformFee` unchanged (no local comparison against `amount` guards it),
and an upstream rejection surfaces as the 500 upstream-error response. -/
theorem c7_fee_forwarded_unchecked (req : PaymentRequest) (now : Nat)
    (createResult : Except String CreatedPI)
    (h : missingFields req = false) :
    (∃ params : PaymentIntentParams,
        (createPaymentIntent req now createResult).2 =
          [.paymentIntentCreate params] ∧
        params.application_fee_amount = req.platformFee.getD 0 ∧
        params.amount = req.amount.getD 0) ∧
    (∀ e, createResult = .error e →
        (createPaymentIntent req now createResult).1 = .upstreamError e) := by
  constructor
  · refine ⟨{ amount := req.amount.getD 0
              currency := req.currency.getD "myr"
              customer := req.customerId.getD ""
              automaticPaymentMethods := true
              destination := req.ownerConnectAccountId.getD ""
              transfer_group := mkTransferGroup now
              application_fee_amount := req.platformFee.getD 0
              description := req.description.getD "Rentify booking" },
      ?_, rfl, rfl⟩
    cases createResult with
    | error e => simp [createPaymentIntent, h]
    | ok pi => simp [createPaymentIntent, h]
  · intro e he
    subst he
    simp [createPaymentIntent, h]

/-- Witness for `c7_fee_forwarded_unchecked`: fee 99999 on amount 100 is
still forwarded, and the upstream rejection comes back as a 500. -/
theorem c7_fee_forwarded_unchecked_witness :
    (∃ params : PaymentIntentParams,
        (createPaymentIntent reqBigFee 77 (.error "fee exceeds amount")).2 =
          [.paymentIntentCreate params] ∧
        params.application_fee_amount = 99999 ∧
        params.amount = 100) ∧
    (createPaymentIntent reqBigFee 77 (.error "fee exceeds amount")).1 =
      .upstreamError "fee exceeds amount" := by
  have h := c7_fee_forwarded_unchecked reqBigFee 77 (.error "fee exceeds amount") rfl
  refine ⟨?_, h.2 _ rfl⟩
  obtain ⟨params, h1, h2, h3⟩ := h.1
  exact ⟨params, h1, by rw [h2]; rfl, by rw [h3]; rfl⟩

/-! ## C8 -/

/-- Claim C8: the local validation rejects exactly the requests with a
falsy `amount`, `customerId` or `ownerConnectAccountId`; in particular
`amount = 0` is rejected with the 400 response, while a negative amount
passes validation and is forwarded unchanged in the upstream call. -/
theorem c8_validation_boundary (req : PaymentRequest) (now : Nat)
    (createResult : Except String CreatedPI) :
    ((createPaymentIntent req now createResult).1 =
        .badRequest "Missing fields" ↔
      (falsyInt req.amount || falsyStr req.customerId ||
        falsyStr req.ownerConnectAccountId) = true) ∧
    (req.amount = some 0 →
      createPaymentIntent req now createResult =
        (.badRequest "Missing fields", [])) ∧
    (∀ a : Int, a < 0 → req.amount = some a →
      falsyStr req.customerId = false →
      falsyStr req.ownerConnectAccountId = false →
      ∃ params : PaymentIntentParams,
        (createPaymentIntent req now createResult).2 =
          [.paymentIntentCreate params] ∧
        params.amount = a) := by
  refine ⟨?_, ?_, ?_⟩
  · constructor
    · intro hbad
      by_cases hm : missingFields req = true
      · exact hm
      · exfalso
        rw [Bool.not_eq_true] at hm
        cases createResult with
        | error e => simp [createPaymentIntent, hm] at hbad
        | ok pi => simp [createPaymentIntent, hm] at hbad
    · intro hfal
      simp [createPaymentIntent, show missingFields req = true from hfal]
  · intro h0
    have hm : missingFields req = true := by
      simp [missingFields, h0, falsyInt]
    simp [createPaymentIntent, hm]
  · intro a ha hamount hc ho
    have hm : missingFields req = false := by
      have hfa : falsyInt req.amount = false := by
        simp [falsyInt, hamount]
        omega
      simp [missingFields, hfa, hc, ho]
    refine ⟨{ amount := req.amount.getD 0
              currency := req.currency.getD "myr"
              customer := req.customerId.getD ""
              automaticPaymentMethods := true
              destination := req.ownerConnectAccountId.getD ""
              transfer_group := mkTransferGroup now
              application_fee_amount := req.platformFee.getD 0
              description := req.description.getD "Rentify booking" },
      ?_, by rw [hamount]; rfl⟩
    cases createResult with
    | error e => simp [createPaymentIntent, hm]
    | ok pi => simp [createPaymentIntent, hm]

/-- Witness for `c8_validation_boundary`: `amount = 0` is rejected,
`amount = -5` reaches the upstream call unchanged. -/
theorem c8_validation_boundary_witness :
    (createPaymentIntent reqZeroAmount 1 (.ok ⟨some "cs", "pi_1"⟩)).1 =
        .badRequest "Missing fields" ∧
    (∃ params : PaymentIntentParams,
        (createPaymentIntent reqNegAmount 1 (.ok ⟨some "cs", "pi_1"⟩)).2 =
          [.paymentIntentCreate params] ∧
        params.amount = -5) := by
  constructor
  · have h := (c8_validation_boundary reqZeroAmount 1 (.ok ⟨some "cs", "pi_1"⟩)).2.1 rfl
    rw [h]
  · exact (c8_validation_boundary reqNegAmount 1 (.ok ⟨some "cs", "pi_1"⟩)).2.2
      (-5) (by decide) rfl rfl rfl

/-! ## C6 -/

theorem sortTxns_sorted (l : List Txn) : List.Sorted txnGe (sortTxns l) :=
  List.sorted_insertionSort txnGe l

theorem sortTxns_perm (l : List Txn) : (sortTxns l).Perm l :=
  List.perm_insertionSort txnGe l

/-- Claim C6, as stated, is false on ties: two charges of the same
customer created in the same second both appear in the renter's combined
list with equal `created`, so the output is not *strictly* descending —
consecutive entries can share a creation time. -/
theorem c6_counterexample :
    rentersHandler (some "cus_1") (.ok [tieCharge1, tieCharge2]) (.ok []) =
      .ok [toPaymentTxn tieCharge1, toPaymentTxn tieCharge2] ∧
    (toPaymentTxn tieCharge1).created = (toPaymentTxn tieCharge2).created ∧
    tieCharge1 ≠ tieCharge2 ∧
    ¬ (toPaymentTxn tieCharge2).created < (toPaymentTxn tieCharge1).created := by
  refine ⟨by decide, by decide, by decide, by decide⟩

/-- Claim C6 (amended): each history endpoint returns the combined list
sorted by creation time in descending (non-increasing; ties permitted)
order, and a refund enters a renter's list exactly when its expanded
charge is present and that charge's customer equals the requested
`customerId`. -/
theorem c6_history_sorted_and_filtered (cid aid : String)
    (hc : cid ≠ "") (ha : aid ≠ "")
    (cs : List Charge) (rs : List RefundItem) (ts : List OwnerTransfer) :
    (∃ l, rentersHandler (some cid) (.ok cs) (.ok rs) = .ok l ∧
        List.Sorted txnGe l ∧
        l.Perm (cs.map toPaymentTxn ++
          (rs.filter (refundMatches cid)).map toRefundTxn)) ∧
    (∀ r : RefundItem, refundMatches cid r = true ↔
        ∃ c, r.charge = some c ∧ c.customer = some cid) ∧
    (∃ l, ownersHandler (some aid) (.ok ts) = .ok l ∧
        List.Sorted txnGe l) := by
  refine ⟨?_, ?_, ?_⟩
  · refine ⟨sortTxns (cs.map toPaymentTxn ++
        (rs.filter (refundMatches cid)).map toRefundTxn), ?_, ?_, ?_⟩
    · simp [rentersHandler, falsyStr_some_eq_false hc]
    · exact sortTxns_sorted _
    · exact sortTxns_perm _
  · intro r
    cases hch : r.charge with
    | none => simp [refundMatches, hch]
    | some c => simp [refundMatches, hch]
  · refine ⟨sortTxns (ts.map toPayoutTxn ++
        ts.flatMap fun t => (t.reversals.getD []).map (toReversalTxn t)), ?_, ?_⟩
    · simp [ownersHandler, falsyStr_some_eq_false ha]
    · exact sortTxns_sorted _

/-- Witness for `c6_history_sorted_and_filtered` on concrete inputs. -/
theorem c6_history_sorted_and_filtered_witness :
    (∃ l, rentersHandler (some "cus_1") (.ok [tieCharge1, tieCharge2])
          (.ok []) = .ok l ∧
        List.Sorted txnGe l ∧
        l.Perm ([tieCharge1, tieCharge2].map toPaymentTxn ++
          (List.filter (refundMatches "cus_1") []).map toRefundTxn)) ∧
    (∃ l, ownersHandler (some "acct_1") (.ok []) = .ok l ∧
        List.Sorted txnGe l) := by
  have h := c6_history_sorted_and_filtered "cus_1" "acct_1"
    (by decide) (by decide) [tieCharge1, tieCharge2] [] []
  exact ⟨h.1, h.2.2⟩

/-! ## C9 -/

/-- Claim C9: with at least one identifier supplied, the delete endpoint
answers 200 with top-level `success = true` no matter whether the
attempted deletions succeed (their outcomes land only in `details`); and
an absent `connectAccountId` is reported as `connectAccountDeleted =
true` while no account-deletion call is issued. -/
theorem c9_delete_always_success (customerId connectAccountId : Option String)
    (customerDelOk connectDelOk : Bool)
    (h : (falsyStr customerId && falsyStr connectAccountId) = false) :
    (deleteAccounts customerId connectAccountId customerDelOk connectDelOk).1 =
      .ok true "Deletion attempted."
        { customerDeleted :=
            if falsyStr customerId then none else some customerDelOk
          connectAccountDeleted :=
            if falsyStr connectAccountId then some true
            else some connectDelOk } ∧
    (falsyStr connectAccountId = true →
      ∀ a, StripeCall.accountDelete a ∉
        (deleteAccounts customerId connectAccountId
          customerDelOk connectDelOk).2) := by
  constructor
  · simp [deleteAccounts, h]
  · intro hfa a
    by_cases hfc : falsyStr customerId = true
    · simp [deleteAccounts, h, hfa, hfc]
    · simp only [Bool.not_eq_true] at hfc
      simp [deleteAccounts, h, hfa, hfc]

/-- Witness for `c9_delete_always_success`: only a customer id supplied
and its deletion fails; the endpoint still reports overall success and
claims the (never-attempted) connect-account deletion succeeded. -/
theorem c9_delete_always_success_witness :
    (deleteAccounts (some "cus_1") none false false).1 =
      .ok true "Deletion attempted."
        { customerDeleted := some false, connectAccountDeleted := some true } ∧
    StripeCall.accountDelete "acct_1" ∉
      (deleteAccounts (some "cus_1") none false false).2 := by
  have h := c9_delete_always_success (some "cus_1") none false false rfl
  exact ⟨by rw [h.1]; rfl, h.2 rfl "acct_1"⟩

/-! ## C10 -/

/-- Claim C10: `GET /config` always answers 200 with whatever value the
publishable-key environment variable holds; the startup check reads only
the secret key, so the server can start (and the endpoint succeed) with
the publishable key absent, returning an absent key. -/
theorem c10_config_echoes_env (env : ProcessEnv) :
    configHandler env =
      (200, { publishableKey := env.STRIPE_PUBLISHABLE_KEY }) ∧
    startupExits { STRIPE_SECRET_KEY := env.STRIPE_SECRET_KEY
                   STRIPE_PUBLISHABLE_KEY := none } = startupExits env ∧
    configHandler { STRIPE_SECRET_KEY := some "sk_test"
                    STRIPE_PUBLISHABLE_KEY := none } =
      (200, { publishableKey := none }) ∧
    startupExits { STRIPE_SECRET_KEY := some "sk_test"
                   STRIPE_PUBLISHABLE_KEY := none } = false :=
  ⟨rfl, rfl, rfl, rfl⟩

end Rentify
